import Mathlib

/-!
Shallow embedding of the retail-data-analytics routing layer:
the Intent schema (schemas/intent.py), the deterministic query router
(services/query_router.py) and the chat orchestrator (flask_app.py).
Data-service fetches are modelled as explicit function parameters, since
they are external calls; everything else follows the Python source.
-/

namespace Retail

/-- JSON-ish values as produced and consumed by the Python code. -/
inductive Value where
  | vnull : Value
  | vbool : Bool → Value
  | vint : Int → Value
  | vstr : String → Value
  | vlist : List Value → Value
  | vdict : List (String × Value) → Value
deriving Repr

/-- Python truthiness of a value, as used in conditions like `if not x`. -/
def Value.truthy : Value → Bool
  | .vnull => false
  | .vbool b => b
  | .vint n => n != 0
  | .vstr s => s != ""
  | .vlist xs => !xs.isEmpty
  | .vdict fs => !fs.isEmpty

/-- Python dictionaries with string keys, as ordered association lists. -/
def Dict := List (String × Value)

/-- Lookup with default None, i.e. Python `d.get(k)`. -/
def dget : Dict → String → Value
  | [], _ => .vnull
  | (k2, v) :: rest, k => if k2 = k then v else dget rest k

/-- Assignment `d[k] = v` on a (copied) dict: replace in place if the key
exists, otherwise append, matching Python insertion-order semantics. -/
def dset : Dict → String → Value → Dict
  | [], k, v => [(k, v)]
  | (k2, w) :: rest, k, v =>
    if k2 = k then (k, v) :: rest else (k2, w) :: dset rest k v

/-- Emptiness of a dict, i.e. Python `not d` for a dict `d`. -/
def Dict.isEmptyD : Dict → Bool
  | [] => true
  | _ :: _ => false

/-- Test whether a value is Python `None`. -/
def isNull : Value → Bool
  | .vnull => true
  | _ => false

/-- Python `x in (None, {})`: equal to None or to the empty dict. -/
def inNoneOrEmpty : Value → Bool
  | .vnull => true
  | .vdict fs => fs.isEmpty
  | _ => false

/-- Check whether `needle` occurs as a contiguous sublist of the second list. -/
def subList (needle : List Char) : List Char → Bool
  | [] => needle.isEmpty
  | c :: t => needle.isPrefixOf (c :: t) || subList needle t

/-- Python `needle in hay` on strings: substring containment. -/
def strContains (hay needle : String) : Bool :=
  subList needle.data hay.data

/-- Python `s.split("..", 1)` when ".." occurs: split at the first
occurrence, returning the parts before and after it. -/
def splitTwoDots : List Char → Option (List Char × List Char)
  | [] => none
  | c :: rest =>
    if c = '.' ∧ rest.head? = some '.' then
      some ([], rest.tail)
    else
      match splitTwoDots rest with
      | some (a, b) => some (c :: a, b)
      | none => none

/-- Drop leading whitespace characters from a character list. -/
def dropWs : List Char → List Char
  | [] => []
  | c :: t => if c.isWhitespace then dropWs t else c :: t

/-- Python `s.strip()`: remove whitespace from both ends. -/
def pyStrip (s : String) : String :=
  String.mk ((dropWs (dropWs s.data).reverse).reverse)

/-- Python `s.lower()` for the ASCII range. -/
def pyLower (s : String) : String :=
  String.mk (s.data.map Char.toLower)

/-- Python `s or None` on a string: an empty string becomes None. -/
def noneIfEmpty (s : String) : Option String :=
  if s = "" then none else some s

/-- Embeds `_interpret_date_range` from services/query_router.py. -/
def _interpret_date_range : Option String → Option String × Option String
  | none => (none, none)
  | some s =>
    if s = "" then (none, none)
    else
      match splitTwoDots s.data with
      | some (a, b) =>
        (noneIfEmpty (pyStrip (String.mk a)), noneIfEmpty (pyStrip (String.mk b)))
      | none => (none, none)

/-- The three allowed intent kinds (the Literal in schemas/intent.py). -/
inductive IntentKind where
  | customer
  | product
  | business_metric
deriving DecidableEq, Repr

/-- Embeds the Intent pydantic model from schemas/intent.py. -/
structure Intent where
  intent : IntentKind
  customer_id : Option Int := none
  product_id : Option String := none
  metric : Option String := none
  top_n : Option Int := none
  date_range : Option String := none
deriving Repr

/-- The data-service operations the router can call, as abstract functions:
they are external HTTP calls in services/data_service.py, each returning a
decoded JSON object. -/
structure DataService where
  get_customer : Int → Option String → Option String → Dict
  get_product : String → Option String → Option String → Dict
  get_metrics_summary : Option String → Option String → Dict
  get_metrics_by_category : Option String → Option String → Dict
  get_metrics_by_payment : Option String → Option String → Dict
  get_top_customers : Int → Option String → Option String → Dict
  get_top_products : Int → Option String → Option String → Dict

/-- Structured routing output, embedding RoutedResult. -/
structure RoutedResult where
  intent : Intent
  data : Dict

/-- The fixed supported-metrics list echoed in status payloads. -/
def supportedMetricsV : Value :=
  .vlist [.vstr "summary", .vstr "top_customers", .vstr "top_products",
          .vstr "metrics_by_category", .vstr "metrics_by_payment"]

/-- Optional string as a JSON value (None becomes null). -/
def optStr : Option String → Value
  | none => .vnull
  | some s => .vstr s

/-- Optional integer as a JSON value (None becomes null). -/
def optInt : Option Int → Value
  | none => .vnull
  | some n => .vint n

/-- Customer branch of route_intent after the fetch: the no-data gate and
the transaction-list trimming with bookkeeping fields. -/
def customerAfterFetch (cid : Int) (payload : Dict) : Dict :=
  if payload.isEmptyD
     || (!(dget payload "transactions").truthy && isNull (dget payload "summary")) then
    [("status", .vstr "no_data"), ("reason", .vstr "no_customer_transactions"),
     ("customerId", .vint cid)]
  else
    match dget payload "transactions" with
    | .vlist ts =>
      dset (dset (dset (dset payload "transactions" (.vlist (ts.take 15)))
        "transactionCount" (.vint ts.length))
        "transactionsLimit" (.vint 15))
        "transactionsTruncated" (.vbool (decide (ts.length > 15)))
    | _ => payload

/-- Store-list trimming inside the product summary. -/
def trimSummary (summary : Value) : Value :=
  match summary with
  | .vdict fs =>
    match dget fs "stores" with
    | .vlist stores =>
      .vdict (dset (dset (dset (dset fs "storeCount" (.vint stores.length))
        "storesTruncated" (.vbool (decide (stores.length > 15))))
        "storesLimit" (.vint 15))
        "stores" (.vlist (stores.take 15)))
    | _ => .vdict fs
  | v => v

/-- Product branch of route_intent after the fetch: summary trimming, the
no-signal gate, and assembly of the slim payload. -/
def productAfterFetch (pid : String) (payload : Dict) : Dict :=
  let summary0 := dget payload "summary"
  let summary := if summary0.truthy then summary0 else .vdict []
  let trimmed := trimSummary summary
  if payload.isEmptyD || inNoneOrEmpty trimmed
     || (match trimmed with
         | .vdict fs =>
           !(dget fs "transactionCount").truthy
             && !(dget fs "totalQuantity").truthy
             && !(dget fs "totalRevenue").truthy
         | _ => false) then
    [("status", .vstr "no_data"), ("reason", .vstr "no_product_transactions"),
     ("productId", .vstr pid)]
  else
    let slim : Dict :=
      [("productId", dget payload "productId"), ("summary", trimmed),
       ("filters", dget payload "filters")]
    match dget payload "transactions" with
    | .vlist ts =>
      dset (dset (dset (dset slim "transactions" (.vlist (ts.take 15)))
        "transactionCount" (.vint ts.length))
        "transactionsLimit" (.vint 15))
        "transactionsTruncated" (.vbool (decide (ts.length > 15)))
    | _ => slim

/-- Metric normalization `(intent.metric or "").strip().lower()`. -/
def normMetric (m : Option String) : String :=
  pyLower (pyStrip (m.getD ""))

/-- Python `intent.top_n or 5`: None and 0 are falsy and give the default. -/
def pyOrInt : Option Int → Int → Int
  | none, d => d
  | some n, d => if n = 0 then d else n

/-- The resolved top-N limit `min(intent.top_n or 5, 15)`. -/
def limitOf (tn : Option Int) : Int :=
  min (pyOrInt tn 5) 15

/-- Annotation of a top-N payload when the requested N exceeds the cap. -/
def topAnnotate (tn : Option Int) (payload : Dict) : Dict :=
  match tn with
  | some n =>
    if n > 15 then
      dset (dset payload "limitRequested" (.vint n)) "limitApplied" (.vint 15)
    else payload
  | none => payload

/-- Business-metric branch of route_intent. -/
def businessMetricRoute (svc : DataService) (it : Intent) : Dict :=
  let metric := normMetric it.metric
  let df := (_interpret_date_range it.date_range).1
  let dt := (_interpret_date_range it.date_range).2
  if metric = "" then
    [("status", .vstr "ambiguous_intent"),
     ("reason", .vstr "business_metric_unspecified"),
     ("supportedMetrics", supportedMetricsV)]
  else if strContains metric "store" || strContains metric "location" then
    [("status", .vstr "unsupported_metric"),
     ("reason", .vstr "metric_not_supported"),
     ("requestedMetric", optStr it.metric),
     ("supportedMetrics", supportedMetricsV)]
  else if metric = "summary" ∨ metric = "overview" ∨ metric = "kpis"
       ∨ metric = "revenue_summary" ∨ metric = "total_revenue" ∨ metric = "revenue" then
    svc.get_metrics_summary df dt
  else if metric = "metrics_by_category" ∨ metric = "revenue_by_category"
       ∨ metric = "category_revenue" ∨ metric = "revenue_per_category" then
    svc.get_metrics_by_category df dt
  else if metric = "metrics_by_payment" ∨ metric = "revenue_by_payment"
       ∨ metric = "payment_revenue" ∨ metric = "revenue_per_payment"
       ∨ metric = "by_payment" then
    svc.get_metrics_by_payment df dt
  else if metric = "top_customers" then
    topAnnotate it.top_n (svc.get_top_customers (limitOf it.top_n) df dt)
  else if metric = "top_products" then
    topAnnotate it.top_n (svc.get_top_products (limitOf it.top_n) df dt)
  else
    [("status", .vstr "unsupported_metric"),
     ("reason", .vstr "metric_not_recognized"),
     ("requestedMetric", optStr it.metric),
     ("supportedMetrics", supportedMetricsV)]

/-- Embeds route_intent from services/query_router.py, parameterized by the
data service. The RoutingError branch is unreachable since IntentKind is a
closed enum, mirroring the validated Literal. -/
def route_intent (svc : DataService) (it : Intent) : RoutedResult :=
  match it.intent with
  | .customer =>
    match it.customer_id with
    | none =>
      ⟨it, [("status", .vstr "ambiguous_intent"),
            ("reason", .vstr "customer_id_missing")]⟩
    | some cid =>
      ⟨it, customerAfterFetch cid
        (svc.get_customer cid (_interpret_date_range it.date_range).1
          (_interpret_date_range it.date_range).2)⟩
  | .product =>
    match it.product_id with
    | none =>
      ⟨it, [("status", .vstr "ambiguous_intent"),
            ("reason", .vstr "product_id_missing")]⟩
    | some pid =>
      ⟨it, productAfterFetch pid
        (svc.get_product pid (_interpret_date_range it.date_range).1
          (_interpret_date_range it.date_range).2)⟩
  | .business_metric => ⟨it, businessMetricRoute svc it⟩

/-- The string serialization of an intent kind. -/
def kindStr : IntentKind → String
  | .customer => "customer"
  | .product => "product"
  | .business_metric => "business_metric"

/-- Embeds `intent.model_dump()`. -/
def intentDump (it : Intent) : Value :=
  .vdict [("intent", .vstr (kindStr it.intent)),
          ("customer_id", optInt it.customer_id),
          ("product_id", optStr it.product_id),
          ("metric", optStr it.metric),
          ("top_n", optInt it.top_n),
          ("date_range", optStr it.date_range)]

/-- Embeds `RoutedResult.to_dict()`. -/
def RoutedResult.to_dict (r : RoutedResult) : Value :=
  .vdict [("intent", intentDump r.intent), ("data", .vdict r.data)]

/-- The three fallible pipeline stages used by the /chat endpoint, as
abstract functions: intent parsing and response generation are external
model calls, and routing may raise through the data service. -/
structure ChatDeps where
  parse_intent : String → Except String Intent
  route : Intent → Except String RoutedResult
  generate_response : String → Value → Except String String

/-- Embeds the /chat endpoint of flask_app.py: HTTP status code plus JSON
body for each pipeline outcome. -/
def chat (deps : ChatDeps) (body : Dict) : Int × Dict :=
  match dget body "query" with
  | .vstr q =>
    if pyStrip q = "" then
      (400, [("error", .vstr "BadRequest"),
             ("message", .vstr "Field query (non-empty string) is required.")])
    else
      match deps.parse_intent (pyStrip q) with
      | .error e =>
        (400, [("error", .vstr "IntentParsingFailed"), ("message", .vstr e)])
      | .ok it =>
        match deps.route it with
        | .error e =>
          (400, [("error", .vstr "RoutingFailed"), ("message", .vstr e),
                 ("intent", intentDump it)])
        | .ok routed =>
          match deps.generate_response (pyStrip q) routed.to_dict with
          | .error e =>
            (502, [("error", .vstr "ResponseGenerationFailed"),
                   ("message", .vstr e), ("intent", intentDump it),
                   ("data", routed.to_dict)])
          | .ok answer =>
            (200, [("intent", intentDump it), ("data", routed.to_dict),
                   ("answer", .vstr answer)])
  | _ =>
    (400, [("error", .vstr "BadRequest"),
           ("message", .vstr "Field query (non-empty string) is required.")])

/-- Decode the kind field: the Literal of the three allowed values. -/
def parseKind (v : Value) : Except String IntentKind :=
  match v with
  | .vstr s =>
    if s = "customer" then .ok .customer
    else if s = "product" then .ok .product
    else if s = "business_metric" then .ok .business_metric
    else .error "intent: not one of the allowed literals"
  | _ => .error "intent: not one of the allowed literals"

/-- Accumulate a decimal value over a character list, failing on the first
non-digit character. -/
def natFromDigits (cs : List Char) (acc : Nat) : Option Nat :=
  match cs with
  | [] => some acc
  | c :: t =>
    if c.isDigit then natFromDigits t (acc * 10 + (c.toNat - 48)) else none

/-- Numeric-string coercion as pydantic v2 lax mode applies it to int
fields: strip whitespace, allow an optional sign, then decimal digits. -/
def strAsInt (s : String) : Option Int :=
  match (pyStrip s).data with
  | [] => none
  | '+' :: rest =>
    if rest = [] then none else (natFromDigits rest 0).map Int.ofNat
  | '-' :: rest =>
    if rest = [] then none
    else (natFromDigits rest 0).map (fun n => -(n : Int))
  | rest => (natFromDigits rest 0).map Int.ofNat

/-- Test whether a value is a string. -/
def isStrV : Value → Bool
  | .vstr _ => true
  | _ => false

/-- Decode an Optional int field under pydantic v2 lax validation (pydantic
is an external dependency; the field declaration in schemas/intent.py is a
plain Optional[int]): null or absent gives None, an integer is taken as is
with no range constraint, and a numeric string is coerced to the integer it
denotes; booleans and structured values fail. -/
def parseOptInt (v : Value) : Except String (Option Int) :=
  match v with
  | .vnull => .ok none
  | .vint n => .ok (some n)
  | .vstr s =>
    match strAsInt s with
    | some n => .ok (some n)
    | none => .error "expected an integer, null, or a numeric string"
  | _ => .error "expected an integer or null"

/-- Decode an Optional str field: null or absent gives None, a string is
taken as is (the model declares no length constraint). -/
def parseOptStr (v : Value) : Except String (Option String) :=
  match v with
  | .vnull => .ok none
  | .vstr s => .ok (some s)
  | _ => .error "expected a string or null"

/-- Embeds pydantic validation of a candidate Intent structure, per the
field declarations of schemas/intent.py. -/
def model_validate (d : Dict) : Except String Intent := do
  let k ← parseKind (dget d "intent")
  let cid ← parseOptInt (dget d "customer_id")
  let pid ← parseOptStr (dget d "product_id")
  let m ← parseOptStr (dget d "metric")
  let tn ← parseOptInt (dget d "top_n")
  let dr ← parseOptStr (dget d "date_range")
  return ⟨k, cid, pid, m, tn, dr⟩

/-- True when validation of the candidate succeeds. -/
def validationOk (d : Dict) : Bool :=
  match model_validate d with
  | .ok _ => true
  | .error _ => false

/-- Acceptable value for the kind field: one of the three literals. -/
def kindB (v : Value) : Bool :=
  match v with
  | .vstr s => s = "customer" || s = "product" || s = "business_metric"
  | _ => false

/-- Acceptable value for an Optional int field. -/
def optIntB (v : Value) : Bool :=
  match v with
  | .vnull => true
  | .vint _ => true
  | _ => false

/-- Acceptable value for an Optional str field. -/
def optStrB (v : Value) : Bool :=
  match v with
  | .vnull => true
  | .vstr _ => true
  | _ => false

/-- Modelled from the spec: the data-model well-formedness of a candidate
structure, as the amended schema contract states it — the kind field is one
of the three allowed literals and every optional field is absent, null, or
of its declared primitive type; no value-range or emptiness constraint. -/
def intentSchemaOk (d : Dict) : Bool :=
  kindB (dget d "intent") && optIntB (dget d "customer_id")
    && optStrB (dget d "product_id") && optStrB (dget d "metric")
    && optIntB (dget d "top_n") && optStrB (dget d "date_range")

/-- The top-N fetch selected by the normalized metric, used to state the
clamping property uniformly over top_customers and top_products. -/
def fetchTopFor (svc : DataService) (metric : String) :
    Int → Option String → Option String → Dict :=
  if metric = "top_customers" then svc.get_top_customers
  else svc.get_top_products

/-- A data service returning empty objects everywhere, used as a base for
concrete test services. -/
def svcEmpty : DataService where
  get_customer := fun _ _ _ => []
  get_product := fun _ _ _ => []
  get_metrics_summary := fun _ _ => []
  get_metrics_by_category := fun _ _ => []
  get_metrics_by_payment := fun _ _ => []
  get_top_customers := fun _ _ _ => []
  get_top_products := fun _ _ _ => []

/-- A probe service whose payloads echo back the identifier and limit each
fetch was performed with. -/
def svcProbe : DataService :=
  { svcEmpty with
    get_customer := fun c _ _ =>
      [("transactions", .vlist [.vint 1]), ("fetchedCustomerId", .vint c)]
    get_product := fun p _ _ =>
      [("productId", .vstr p),
       ("summary", .vdict [("transactionCount", .vint 1)])] }

/-- A service whose customer fetch yields an empty transaction list and no
summary field. -/
def svcEmptyTxns : DataService :=
  { svcEmpty with
    get_customer := fun _ _ _ => [("transactions", .vlist [])] }

/-- A service whose customer fetch yields twenty transactions. -/
def svcManyTxns : DataService :=
  { svcEmpty with
    get_customer := fun _ _ _ =>
      [("transactions", .vlist (List.replicate 20 (Value.vint 1)))] }

/-- A service whose top-customers fetch records the limit it received. -/
def svcTop : DataService :=
  { svcEmpty with
    get_top_customers := fun l _ _ =>
      [("limit", .vint l), ("metrics", .vlist [])] }

/-- A service whose product fetch yields all-zero aggregates together with
a non-empty stores list. -/
def svcZeroProduct : DataService :=
  { svcEmpty with
    get_product := fun _ _ _ =>
      [("summary", .vdict
        [("transactionCount", .vint 0), ("totalQuantity", .vint 0),
         ("totalRevenue", .vint 0), ("stores", .vlist [.vstr "s1"])])] }

/-- Chat dependencies whose intent-parsing stage always fails. -/
def depsParseFail : ChatDeps where
  parse_intent := fun _ => .error "boom"
  route := fun it => .ok ⟨it, []⟩
  generate_response := fun _ _ => .ok "fine"

/-- Success indicator for a fallible computation. -/
def exOk {α : Type} : Except String α → Bool
  | .ok _ => true
  | .error _ => false

/-- Setting a key then reading it back gives the new value. -/
theorem dget_dset_self (d : Dict) (k : String) (v : Value) :
    dget (dset d k v) k = v := by
  induction d with
  | nil => simp [dset, dget]
  | cons p rest ih =>
    obtain ⟨k2, w⟩ := p
    by_cases h : k2 = k
    · simp [dset, dget, h]
    · simp [dset, dget, h, ih]

/-- Setting one key leaves every other key unchanged. -/
theorem dget_dset_ne (d : Dict) (k k2 : String) (v : Value) (h : k ≠ k2) :
    dget (dset d k v) k2 = dget d k2 := by
  induction d with
  | nil => simp [dset, dget, h]
  | cons p rest ih =>
    obtain ⟨k3, w⟩ := p
    by_cases h3 : k3 = k
    · subst h3
      simp [dset, dget, h]
    · simp [dset, dget, h3, ih]

/-- Lookup in the empty dict gives null. -/
theorem dget_nil (k : String) : dget [] k = .vnull := rfl

/-- A dict whose lookup at some key is a list is not empty. -/
theorem ne_nil_of_dget_vlist {d : Dict} {k : String} {ts : List Value}
    (h : dget d k = .vlist ts) : d.isEmptyD = false := by
  cases d with
  | nil => simp [dget] at h
  | cons p rest => rfl

/-- Finding ".." succeeds exactly when the two-character needle occurs. -/
theorem splitTwoDots_isSome (l : List Char) :
    (splitTwoDots l).isSome = subList ['.', '.'] l := by
  induction l with
  | nil => rfl
  | cons c t ih =>
    by_cases h : c = '.' ∧ t.head? = some '.'
    · obtain ⟨hc, ht⟩ := h
      subst hc
      cases t with
      | nil => simp at ht
      | cons d t2 =>
        simp at ht
        subst ht
        simp [splitTwoDots, subList, List.isPrefixOf]
    · rw [subList]
      have hpre : ['.', '.'].isPrefixOf (c :: t) = false := by
        cases t with
        | nil =>
          simp [List.isPrefixOf]
        | cons d t2 =>
          simp [List.isPrefixOf]
          intro hc hd
          exact h ⟨hc.symm, by simp [hd.symm]⟩
      rw [hpre]
      simp only [Bool.false_or]
      rw [splitTwoDots]
      rw [if_neg h]
      cases hs : splitTwoDots t with
      | none => rw [hs] at ih; simpa using ih
      | some p => rw [hs] at ih; cases p; simpa using ih

/-- Splitting a list that is an explicit concatenation around ".." finds
that occurrence when no earlier one exists. -/
theorem splitTwoDots_append (a b : List Char)
    (ha : subList ['.', '.'] (a ++ ['.']) = false) :
    splitTwoDots (a ++ '.' :: '.' :: b) = some (a, b) := by
  induction a with
  | nil => simp [splitTwoDots]
  | cons c a2 ih =>
    have hnot : ¬(c = '.' ∧ (a2 ++ '.' :: '.' :: b).head? = some '.') := by
      rintro ⟨hc, hh⟩
      subst hc
      cases a2 with
      | nil =>
        simp [subList, List.isPrefixOf] at ha
      | cons d a3 =>
        simp at hh
        subst hh
        simp [subList, List.isPrefixOf] at ha
    rw [List.cons_append, splitTwoDots, if_neg hnot]
    have ha2 : subList ['.', '.'] (a2 ++ ['.']) = false := by
      rw [List.cons_append, subList] at ha
      simp only [Bool.or_eq_false_iff] at ha
      exact ha.2
    rw [ih ha2]

/-- Rebuilding a string from its character data gives the string back. -/
theorem mk_data (s : String) : String.mk s.data = s := rfl

/-- C6: a customer intent with customer_id = None routes to
ambiguous_intent with reason customer_id_missing, and a product intent
with product_id = None routes to ambiguous_intent with reason
product_id_missing; the result is a fixed payload, the same for every
data service, so no fetch is performed. -/
theorem c6_missing_id_ambiguous (svc : DataService) (cidO : Option Int)
    (pidO : Option String) (m : Option String) (tn : Option Int)
    (dr : Option String) :
    route_intent svc ⟨.customer, none, pidO, m, tn, dr⟩ =
      ⟨⟨.customer, none, pidO, m, tn, dr⟩,
       [("status", .vstr "ambiguous_intent"),
        ("reason", .vstr "customer_id_missing")]⟩ ∧
    route_intent svc ⟨.product, cidO, none, m, tn, dr⟩ =
      ⟨⟨.product, cidO, none, m, tn, dr⟩,
       [("status", .vstr "ambiguous_intent"),
        ("reason", .vstr "product_id_missing")]⟩ :=
  ⟨rfl, rfl⟩

/-- C9: only literal None triggers the ambiguous status: with customer_id
present — including 0 and negative integers — and with product_id present —
including the empty string — route_intent proceeds to fetch with that
identifier and post-processes the fetched payload; the probe service shows
the fetch happening at id 0, at a negative id, and at the empty product id,
with no status field set. -/
theorem c9_zero_and_empty_ids_fetch (svc : DataService) (c : Int)
    (p : String) (cidO : Option Int) (pidO : Option String)
    (m : Option String) (tn : Option Int) (dr : Option String) :
    route_intent svc ⟨.customer, some c, pidO, m, tn, dr⟩ =
      ⟨⟨.customer, some c, pidO, m, tn, dr⟩,
       customerAfterFetch c (svc.get_customer c
         (_interpret_date_range dr).1 (_interpret_date_range dr).2)⟩ ∧
    route_intent svc ⟨.product, cidO, some p, m, tn, dr⟩ =
      ⟨⟨.product, cidO, some p, m, tn, dr⟩,
       productAfterFetch p (svc.get_product p
         (_interpret_date_range dr).1 (_interpret_date_range dr).2)⟩ ∧
    dget (route_intent svcProbe
        ⟨.customer, some 0, none, none, none, none⟩).data
      "fetchedCustomerId" = .vint 0 ∧
    dget (route_intent svcProbe
        ⟨.customer, some (-3), none, none, none, none⟩).data
      "fetchedCustomerId" = .vint (-3) ∧
    dget (route_intent svcProbe
        ⟨.product, none, some "", none, none, none⟩).data
      "productId" = .vstr "" ∧
    dget (route_intent svcProbe
        ⟨.customer, some 0, none, none, none, none⟩).data
      "status" = .vnull :=
  ⟨rfl, rfl, rfl, rfl, rfl, rfl⟩

/-- C2 counterexample: the string "2024-01-01.." is non-empty and is not of
the exact form YYYY-MM-DD..YYYY-MM-DD, yet interpretation yields a present
lower bound rather than (None, None). -/
theorem c2_counterexample :
    _interpret_date_range (some "2024-01-01..") = (some "2024-01-01", none) ∧
    _interpret_date_range (some "2024-01-01..") ≠ (none, none) := by
  decide

/-- C2 amended: the exact form splits into the two dates; None, the empty
string and whitespace-only strings give (None, None); a bare date gives
(None, None); and every string that does not contain the separator ".."
gives (None, None). -/
theorem c2_date_range_interpretation :
    _interpret_date_range (some "2024-01-01..2024-12-31") =
      (some "2024-01-01", some "2024-12-31") ∧
    _interpret_date_range none = (none, none) ∧
    _interpret_date_range (some "") = (none, none) ∧
    _interpret_date_range (some "   ") = (none, none) ∧
    _interpret_date_range (some "2024-01-01") = (none, none) ∧
    ∀ s : String, strContains s ".." = false →
      _interpret_date_range (some s) = (none, none) := by
  refine ⟨by decide, rfl, by decide, by decide, by decide, ?_⟩
  intro s hs
  by_cases he : s = ""
  · subst he; rfl
  · show (if s = "" then (none, none)
      else match splitTwoDots s.data with
        | some (a, b) =>
          (noneIfEmpty (pyStrip (String.mk a)), noneIfEmpty (pyStrip (String.mk b)))
        | none => (none, none)) = (none, none)
    rw [if_neg he]
    cases hsp : splitTwoDots s.data with
    | none => rfl
    | some p =>
      exfalso
      have hiso := splitTwoDots_isSome s.data
      rw [hsp] at hiso
      rw [strContains] at hs
      rw [show ("..".data) = ['.', '.'] from rfl] at hs
      rw [hs] at hiso
      simp at hiso

/-- C2 witness: a concrete string without the separator maps to
(None, None) through the general clause. -/
theorem c2_date_range_interpretation_witness :
    _interpret_date_range (some "last_month") = (none, none) :=
  c2_date_range_interpretation.2.2.2.2.2 "last_month" (by decide)

/-- C10: interpretation splits at the first ".." only, trimming each side
and turning an empty side into an absent bound: one-sided bounds are
producible, ".." gives (None, None), "a..b..c" keeps "b..c" whole, and in
general a string a ++ ".." ++ b with no earlier occurrence splits into the
trimmed sides. -/
theorem c10_split_first_occurrence :
    _interpret_date_range (some "2024-01-01..") = (some "2024-01-01", none) ∧
    _interpret_date_range (some "..2024-12-31") = (none, some "2024-12-31") ∧
    _interpret_date_range (some "..") = (none, none) ∧
    _interpret_date_range (some "a..b..c") = (some "a", some "b..c") ∧
    ∀ a b : String, strContains (a ++ ".") ".." = false →
      _interpret_date_range (some (a ++ ".." ++ b)) =
        (noneIfEmpty (pyStrip a), noneIfEmpty (pyStrip b)) := by
  refine ⟨by decide, by decide, by decide, by decide, ?_⟩
  intro a b hab
  have hdata : (a ++ ".." ++ b).data = a.data ++ '.' :: '.' :: b.data := by
    rw [String.data_append, String.data_append, List.append_assoc]
    rfl
  have hne : a ++ ".." ++ b ≠ "" := by
    intro h
    have hd := congrArg String.data h
    rw [hdata] at hd
    simp at hd
  have hsub : subList ['.', '.'] (a.data ++ ['.']) = false := by
    rw [strContains] at hab
    rw [show ("..".data) = ['.', '.'] from rfl] at hab
    rw [String.data_append] at hab
    exact hab
  show (if a ++ ".." ++ b = "" then (none, none)
      else match splitTwoDots (a ++ ".." ++ b).data with
        | some (x, y) =>
          (noneIfEmpty (pyStrip (String.mk x)), noneIfEmpty (pyStrip (String.mk y)))
        | none => (none, none)) = (noneIfEmpty (pyStrip a), noneIfEmpty (pyStrip b))
  rw [if_neg hne, hdata, splitTwoDots_append a.data b.data hsub]

/-- Under the customer no-data gate being passed, the transaction list is
trimmed with bookkeeping fields. -/
theorem customerAfterFetch_trim (cid : Int) (P : Dict) (ts : List Value)
    (hfetch : dget P "transactions" = .vlist ts)
    (hgate : ts ≠ [] ∨ dget P "summary" ≠ .vnull) :
    customerAfterFetch cid P =
      dset (dset (dset (dset P "transactions" (.vlist (ts.take 15)))
        "transactionCount" (.vint ts.length))
        "transactionsLimit" (.vint 15))
        "transactionsTruncated" (.vbool (decide (ts.length > 15))) := by
  have hne : P.isEmptyD = false := ne_nil_of_dget_vlist hfetch
  have hcond : (P.isEmptyD
      || (!(dget P "transactions").truthy && isNull (dget P "summary"))) = false := by
    rw [hne, hfetch]
    rcases hgate with h | h
    · have hts : ts.isEmpty = false := by
        cases ts with
        | nil => exact absurd rfl h
        | cons x l => rfl
      simp [Value.truthy, hts]
    · have hs : isNull (dget P "summary") = false := by
        cases hv : dget P "summary"
        · exact absurd hv h
        all_goals rfl
      simp [hs]
  unfold customerAfterFetch
  rw [hcond]
  simp only [Bool.false_eq_true, if_false]
  rw [hfetch]

/-- C1 corrected: for a customer intent with customer_id present, whenever
the fetched payload's transactions field is a list of length L and the
no-data gate does not fire (the list is non-empty, or the summary field is
present and non-null), the routed payload carries the first min(L, 15)
transactions, transactionCount = L, transactionsLimit = 15 and
transactionsTruncated = (L > 15); for L ≤ 15 the list is unmodified. -/
theorem c1_customer_transactions_trim (svc : DataService) (cid : Int)
    (pidO : Option String) (m : Option String) (tn : Option Int)
    (dr : Option String) (ts : List Value)
    (hfetch : dget (svc.get_customer cid (_interpret_date_range dr).1
        (_interpret_date_range dr).2) "transactions" = .vlist ts)
    (hgate : ts ≠ [] ∨ dget (svc.get_customer cid (_interpret_date_range dr).1
        (_interpret_date_range dr).2) "summary" ≠ .vnull) :
    dget (route_intent svc ⟨.customer, some cid, pidO, m, tn, dr⟩).data
      "transactions" = .vlist (ts.take 15) ∧
    dget (route_intent svc ⟨.customer, some cid, pidO, m, tn, dr⟩).data
      "transactionCount" = .vint ts.length ∧
    dget (route_intent svc ⟨.customer, some cid, pidO, m, tn, dr⟩).data
      "transactionsLimit" = .vint 15 ∧
    dget (route_intent svc ⟨.customer, some cid, pidO, m, tn, dr⟩).data
      "transactionsTruncated" = .vbool (decide (ts.length > 15)) ∧
    (ts.length ≤ 15 → ts.take 15 = ts) := by
  have hd : (route_intent svc ⟨.customer, some cid, pidO, m, tn, dr⟩).data =
      customerAfterFetch cid (svc.get_customer cid (_interpret_date_range dr).1
        (_interpret_date_range dr).2) := rfl
  rw [hd, customerAfterFetch_trim cid _ ts hfetch hgate]
  refine ⟨?_, ?_, ?_, ?_, fun h => List.take_of_length_le h⟩
  · rw [dget_dset_ne _ _ _ _ (by decide), dget_dset_ne _ _ _ _ (by decide),
        dget_dset_ne _ _ _ _ (by decide), dget_dset_self]
  · rw [dget_dset_ne _ _ _ _ (by decide), dget_dset_ne _ _ _ _ (by decide),
        dget_dset_self]
  · rw [dget_dset_ne _ _ _ _ (by decide), dget_dset_self]
  · rw [dget_dset_self]

/-- C1 witness: a fetch with twenty transactions is trimmed and counted. -/
theorem c1_customer_transactions_trim_witness :
    dget (route_intent svcManyTxns
        ⟨.customer, some 1, none, none, none, none⟩).data
      "transactionCount" = .vint 20 ∧
    dget (route_intent svcManyTxns
        ⟨.customer, some 1, none, none, none, none⟩).data
      "transactionsTruncated" = .vbool true := by
  have h := c1_customer_transactions_trim svcManyTxns 1 none none none none
    (List.replicate 20 (Value.vint 1)) rfl (Or.inl (by simp))
  exact ⟨by simpa using h.2.1, by simpa using h.2.2.2.1⟩

/-- C1 counterexample: a fetched payload whose transactions field is the
empty list with no summary routes to no_data, so no trimmed payload with
transactionCount = 0 is produced, contradicting the unconditional claim. -/
theorem c1_counterexample :
    dget (svcEmptyTxns.get_customer 7 none none) "transactions" =
      .vlist ([] : List Value) ∧
    dget (route_intent svcEmptyTxns
        ⟨.customer, some 7, none, none, none, none⟩).data
      "status" = .vstr "no_data" ∧
    dget (route_intent svcEmptyTxns
        ⟨.customer, some 7, none, none, none, none⟩).data
      "transactionCount" ≠ .vint 0 := by
  refine ⟨rfl, rfl, ?_⟩
  intro h
  exact Value.noConfusion h

/-- C4: a business-metric intent whose normalized metric contains "store"
or "location" is rejected as unsupported_metric/metric_not_supported with
the original metric echoed and the fixed supported list, before any synonym
matching; the result is the same for every data service, so no fetch is
performed. -/
theorem c4_store_location_unsupported (svc : DataService)
    (cidO : Option Int) (pidO : Option String) (m : Option String)
    (tn : Option Int) (dr : Option String)
    (hm : strContains (normMetric m) "store" = true ∨
          strContains (normMetric m) "location" = true) :
    (route_intent svc ⟨.business_metric, cidO, pidO, m, tn, dr⟩).data =
      [("status", .vstr "unsupported_metric"),
       ("reason", .vstr "metric_not_supported"),
       ("requestedMetric", optStr m),
       ("supportedMetrics", supportedMetricsV)] ∧
    ∀ svc2 : DataService,
      route_intent svc2 ⟨.business_metric, cidO, pidO, m, tn, dr⟩ =
        route_intent svc ⟨.business_metric, cidO, pidO, m, tn, dr⟩ := by
  have key : ∀ svc3 : DataService,
      businessMetricRoute svc3 ⟨.business_metric, cidO, pidO, m, tn, dr⟩ =
        [("status", .vstr "unsupported_metric"),
         ("reason", .vstr "metric_not_supported"),
         ("requestedMetric", optStr m),
         ("supportedMetrics", supportedMetricsV)] := by
    intro svc3
    have hne : normMetric m ≠ "" := by
      intro he
      rcases hm with h | h <;> rw [he] at h <;> exact absurd h (by decide)
    have hor : (strContains (normMetric m) "store"
        || strContains (normMetric m) "location") = true := by
      rcases hm with h | h <;> simp [h]
    unfold businessMetricRoute
    rw [if_neg hne, if_pos hor]
  constructor
  · exact key svc
  · intro svc2
    show (⟨⟨.business_metric, cidO, pidO, m, tn, dr⟩,
        businessMetricRoute svc2 ⟨.business_metric, cidO, pidO, m, tn, dr⟩⟩ :
        RoutedResult) =
      ⟨⟨.business_metric, cidO, pidO, m, tn, dr⟩,
        businessMetricRoute svc ⟨.business_metric, cidO, pidO, m, tn, dr⟩⟩
    rw [key svc2, key svc]

/-- C4 witness: a metric mentioning stores is rejected without fetching. -/
theorem c4_store_location_unsupported_witness :
    (route_intent svcEmpty ⟨.business_metric, none, none,
        some "Revenue by STORE", none, none⟩).data =
      [("status", .vstr "unsupported_metric"),
       ("reason", .vstr "metric_not_supported"),
       ("requestedMetric", optStr (some "Revenue by STORE")),
       ("supportedMetrics", supportedMetricsV)] :=
  (c4_store_location_unsupported svcEmpty none none
    (some "Revenue by STORE") none none (Or.inl (by decide))).1

/-- C3: for a business-metric intent whose normalized metric is exactly
top_customers or top_products, with top_n (when present) positive, the
fetch is performed with limit = min(top_n or 5, 15): absent top_n gives 5,
top_n = n ≤ 15 gives n with the payload returned unannotated, and n > 15
gives a fetch at 15 whose payload is additionally annotated with
limitRequested = n and limitApplied = 15, preserving an existing limit
field from the fetch. -/
theorem c3_top_n_clamping (svc : DataService) (cidO : Option Int)
    (pidO : Option String) (m : Option String) (tn : Option Int)
    (dr : Option String)
    (hm : normMetric m = "top_customers" ∨ normMetric m = "top_products")
    (hpos : ∀ n, tn = some n → 0 < n) :
    (tn = none →
      (route_intent svc ⟨.business_metric, cidO, pidO, m, tn, dr⟩).data =
        fetchTopFor svc (normMetric m) 5
          (_interpret_date_range dr).1 (_interpret_date_range dr).2) ∧
    (∀ n : Int, tn = some n → n ≤ 15 →
      (route_intent svc ⟨.business_metric, cidO, pidO, m, tn, dr⟩).data =
        fetchTopFor svc (normMetric m) n
          (_interpret_date_range dr).1 (_interpret_date_range dr).2) ∧
    (∀ n : Int, tn = some n → 15 < n →
      (route_intent svc ⟨.business_metric, cidO, pidO, m, tn, dr⟩).data =
        dset (dset (fetchTopFor svc (normMetric m) 15
            (_interpret_date_range dr).1 (_interpret_date_range dr).2)
          "limitRequested" (.vint n)) "limitApplied" (.vint 15) ∧
      dget (route_intent svc ⟨.business_metric, cidO, pidO, m, tn, dr⟩).data
          "limit" =
        dget (fetchTopFor svc (normMetric m) 15
            (_interpret_date_range dr).1 (_interpret_date_range dr).2)
          "limit") := by
  have key : businessMetricRoute svc ⟨.business_metric, cidO, pidO, m, tn, dr⟩ =
      topAnnotate tn (fetchTopFor svc (normMetric m) (limitOf tn)
        (_interpret_date_range dr).1 (_interpret_date_range dr).2) := by
    rcases hm with h | h <;>
      (simp only [businessMetricRoute, fetchTopFor]; rw [h]; rfl)
  have hroute : (route_intent svc ⟨.business_metric, cidO, pidO, m, tn, dr⟩).data =
      businessMetricRoute svc ⟨.business_metric, cidO, pidO, m, tn, dr⟩ := rfl
  refine ⟨?_, ?_, ?_⟩
  · intro htn
    rw [hroute, key, htn]
    have h5 : limitOf none = 5 := by simp [limitOf, pyOrInt, min_def]
    rw [h5]
    rfl
  · intro n htn hle
    have hn0 : n ≠ 0 := by have := hpos n htn; omega
    have hl : limitOf (some n) = n := by
      simp only [limitOf, pyOrInt, if_neg hn0]
      exact min_eq_left hle
    rw [hroute, key, htn, hl]
    simp only [topAnnotate]
    rw [if_neg (show ¬n > 15 by omega)]
  · intro n htn hlt
    have hn0 : n ≠ 0 := by omega
    have hl : limitOf (some n) = 15 := by
      simp only [limitOf, pyOrInt, if_neg hn0]
      exact min_eq_right (by omega)
    rw [hroute, key, htn, hl]
    simp only [topAnnotate]
    rw [if_pos (show n > 15 by omega)]
    refine ⟨rfl, ?_⟩
    rw [dget_dset_ne _ _ _ _ (by decide), dget_dset_ne _ _ _ _ (by decide)]

/-- C3 witness: requesting the top 50 customers fetches with limit 15 and
annotates the payload. -/
theorem c3_top_n_clamping_witness :
    (route_intent svcTop ⟨.business_metric, none, none,
        some "top_customers", some 50, none⟩).data =
      dset (dset (fetchTopFor svcTop (normMetric (some "top_customers")) 15
          (_interpret_date_range none).1 (_interpret_date_range none).2)
        "limitRequested" (.vint 50)) "limitApplied" (.vint 15) :=
  ((c3_top_n_clamping svcTop none none (some "top_customers") (some 50) none
      (Or.inl (by decide))
      (by intro n h; injection h with h2; omega)).2.2 50 rfl (by omega)).1

/-- Store-list trimming never touches the three aggregate fields. -/
theorem trimSummary_fields (fs : List (String × Value)) :
    ∃ fs2, trimSummary (.vdict fs) = .vdict fs2 ∧
      dget fs2 "transactionCount" = dget fs "transactionCount" ∧
      dget fs2 "totalQuantity" = dget fs "totalQuantity" ∧
      dget fs2 "totalRevenue" = dget fs "totalRevenue" := by
  cases hst : dget fs "stores"
  case vlist stores =>
    refine ⟨dset (dset (dset (dset fs "storeCount" (.vint stores.length))
        "storesTruncated" (.vbool (decide (stores.length > 15))))
        "storesLimit" (.vint 15)) "stores" (.vlist (stores.take 15)),
      by simp only [trimSummary, hst], ?_, ?_, ?_⟩ <;>
      rw [dget_dset_ne _ _ _ _ (by decide), dget_dset_ne _ _ _ _ (by decide),
          dget_dset_ne _ _ _ _ (by decide), dget_dset_ne _ _ _ _ (by decide)]
  all_goals exact ⟨fs, by simp only [trimSummary, hst], rfl, rfl, rfl⟩

/-- Under any of the no-signal conditions, the product branch returns the
no_data payload. -/
theorem productAfterFetch_no_data (pid : String) (P : Dict)
    (h : P = [] ∨ dget P "summary" = .vnull ∨ dget P "summary" = .vdict [] ∨
         ∃ fs, dget P "summary" = .vdict fs ∧
           (dget fs "transactionCount").truthy = false ∧
           (dget fs "totalQuantity").truthy = false ∧
           (dget fs "totalRevenue").truthy = false) :
    productAfterFetch pid P =
      [("status", .vstr "no_data"), ("reason", .vstr "no_product_transactions"),
       ("productId", .vstr pid)] := by
  rcases h with h | h | h | ⟨fs, hsum, h1, h2, h3⟩
  · subst h; rfl
  · simp [productAfterFetch, h, Value.truthy, trimSummary, dget, inNoneOrEmpty]
  · simp [productAfterFetch, h, Value.truthy, trimSummary, dget, inNoneOrEmpty]
  · by_cases hfs : fs = []
    · subst hfs
      simp [productAfterFetch, hsum, Value.truthy, trimSummary, dget,
            inNoneOrEmpty]
    · have hfsE : fs.isEmpty = false := by
        cases fs with
        | nil => exact absurd rfl hfs
        | cons a l => rfl
      obtain ⟨fs2, htrim, e1, e2, e3⟩ := trimSummary_fields fs
      have htt : Value.truthy (.vdict fs) = true := by
        simp [Value.truthy, hfsE]
      simp [productAfterFetch, hsum, htt, htrim, inNoneOrEmpty, e1, e2, e3,
            h1, h2, h3]

/-- C5: for a product intent with product_id present, if the fetched
payload is empty, or its summary is absent or empty, or all three of the
summary's transactionCount, totalQuantity and totalRevenue are falsy, then
routing yields no_data/no_product_transactions with the id echoed,
discarding any partial summary (including a non-empty stores list). -/
theorem c5_product_no_signal (svc : DataService) (cidO : Option Int)
    (pid : String) (m : Option String) (tn : Option Int) (dr : Option String)
    (h : svc.get_product pid (_interpret_date_range dr).1
          (_interpret_date_range dr).2 = [] ∨
         dget (svc.get_product pid (_interpret_date_range dr).1
          (_interpret_date_range dr).2) "summary" = .vnull ∨
         dget (svc.get_product pid (_interpret_date_range dr).1
          (_interpret_date_range dr).2) "summary" = .vdict [] ∨
         ∃ fs, dget (svc.get_product pid (_interpret_date_range dr).1
            (_interpret_date_range dr).2) "summary" = .vdict fs ∧
           (dget fs "transactionCount").truthy = false ∧
           (dget fs "totalQuantity").truthy = false ∧
           (dget fs "totalRevenue").truthy = false) :
    (route_intent svc ⟨.product, cidO, some pid, m, tn, dr⟩).data =
      [("status", .vstr "no_data"), ("reason", .vstr "no_product_transactions"),
       ("productId", .vstr pid)] :=
  productAfterFetch_no_data pid _ h

/-- C5 witness: all-zero aggregates with a non-empty stores list still give
no_data with the partial summary discarded. -/
theorem c5_product_no_signal_witness :
    (route_intent svcZeroProduct
        ⟨.product, none, some "P1", none, none, none⟩).data =
      [("status", .vstr "no_data"), ("reason", .vstr "no_product_transactions"),
       ("productId", .vstr "P1")] :=
  c5_product_no_signal svcZeroProduct none "P1" none none none
    (Or.inr (Or.inr (Or.inr ⟨[("transactionCount", .vint 0),
      ("totalQuantity", .vint 0), ("totalRevenue", .vint 0),
      ("stores", .vlist [.vstr "s1"])], rfl, rfl, rfl, rfl⟩)))

/-- C7: the chat orchestrator maps each pipeline stage's failure to its
distinct error payload — intent parsing to 400/IntentParsingFailed, routing
to 400/RoutingFailed with the intent echoed, response rendering to
502/ResponseGenerationFailed with intent and data echoed — and full
success to 200 with intent, data and answer. -/
theorem c7_chat_error_mapping (deps : ChatDeps) (body : Dict) (q : String)
    (hq : dget body "query" = .vstr q) (hne : pyStrip q ≠ "") :
    (∀ e, deps.parse_intent (pyStrip q) = .error e →
      chat deps body =
        (400, [("error", .vstr "IntentParsingFailed"),
               ("message", .vstr e)])) ∧
    (∀ it e, deps.parse_intent (pyStrip q) = .ok it →
      deps.route it = .error e →
      chat deps body =
        (400, [("error", .vstr "RoutingFailed"), ("message", .vstr e),
               ("intent", intentDump it)])) ∧
    (∀ it r e, deps.parse_intent (pyStrip q) = .ok it →
      deps.route it = .ok r →
      deps.generate_response (pyStrip q) r.to_dict = .error e →
      chat deps body =
        (502, [("error", .vstr "ResponseGenerationFailed"),
               ("message", .vstr e), ("intent", intentDump it),
               ("data", r.to_dict)])) ∧
    (∀ it r ans, deps.parse_intent (pyStrip q) = .ok it →
      deps.route it = .ok r →
      deps.generate_response (pyStrip q) r.to_dict = .ok ans →
      chat deps body =
        (200, [("intent", intentDump it), ("data", r.to_dict),
               ("answer", .vstr ans)])) := by
  refine ⟨?_, ?_, ?_, ?_⟩
  · intro e h1
    simp [chat, hq, hne, h1]
  · intro it e h1 h2
    simp [chat, hq, hne, h1, h2]
  · intro it r e h1 h2 h3
    simp [chat, hq, hne, h1, h2, h3]
  · intro it r ans h1 h2 h3
    simp [chat, hq, hne, h1, h2, h3]

/-- C7 witness: with a parser that always fails, chat returns the
IntentParsingFailed payload. -/
theorem c7_chat_error_mapping_witness :
    chat depsParseFail [("query", .vstr "hello")] =
      (400, [("error", .vstr "IntentParsingFailed"),
             ("message", .vstr "boom")]) :=
  (c7_chat_error_mapping depsParseFail [("query", .vstr "hello")] "hello"
    rfl (by decide)).1 "boom" rfl

/-- Bind success factors through the first stage. -/
theorem exOk_bind {α β : Type} (e : Except String α)
    (f : α → Except String β) :
    exOk (e >>= f) =
      (match e with | .ok a => exOk (f a) | .error _ => false) := by
  cases e <;> rfl

/-- Kind decoding succeeds exactly on the three allowed literals. -/
theorem exOk_parseKind (v : Value) : exOk (parseKind v) = kindB v := by
  cases v
  case vstr s =>
    by_cases h1 : s = "customer" <;> by_cases h2 : s = "product" <;>
      by_cases h3 : s = "business_metric" <;>
      simp [parseKind, kindB, exOk, h1, h2, h3]
  all_goals rfl

/-- Away from string inputs, where lax coercion plays no role,
optional-int decoding succeeds exactly on null and integers. -/
theorem exOk_parseOptInt (v : Value) (h : isStrV v = false) :
    exOk (parseOptInt v) = optIntB v := by
  cases v
  case vstr s => simp [isStrV] at h
  all_goals rfl

/-- Optional-str decoding succeeds exactly on null and strings. -/
theorem exOk_parseOptStr (v : Value) : exOk (parseOptStr v) = optStrB v := by
  cases v <;> rfl

/-- Validation fails outright whenever the kind field is unacceptable,
whatever the other fields hold. -/
theorem validationOk_kind_false (d : Dict)
    (h : kindB (dget d "intent") = false) : validationOk d = false := by
  have hv : validationOk d = exOk (model_validate d) := by
    unfold validationOk
    cases model_validate d <;> rfl
  rw [hv]
  unfold model_validate
  rw [exOk_bind]
  cases hk : parseKind (dget d "intent") with
  | error e => rfl
  | ok k =>
    exfalso
    have hkt : exOk (parseKind (dget d "intent")) = true := by rw [hk]; rfl
    rw [exOk_parseKind, h] at hkt
    exact Bool.noConfusion hkt

/-- On candidates whose int-typed fields are not strings — so lax
numeric-string coercion plays no role — validation success coincides with
field-wise schema conformance. -/
theorem validationOk_eq (d : Dict)
    (hci : isStrV (dget d "customer_id") = false)
    (htn : isStrV (dget d "top_n") = false) :
    validationOk d = intentSchemaOk d := by
  have hv : validationOk d = exOk (model_validate d) := by
    unfold validationOk
    cases model_validate d <;> rfl
  rw [hv]
  unfold model_validate intentSchemaOk
  rw [exOk_bind]
  cases hk : parseKind (dget d "intent") with
  | error e =>
    have h0 : kindB (dget d "intent") = false := by
      rw [← exOk_parseKind, hk]; rfl
    rw [h0]
    simp
  | ok k =>
    have h0 : kindB (dget d "intent") = true := by
      rw [← exOk_parseKind, hk]; rfl
    rw [h0]
    simp only [Bool.true_and]
    rw [exOk_bind]
    cases hc : parseOptInt (dget d "customer_id") with
    | error e =>
      have h1 : optIntB (dget d "customer_id") = false := by
        rw [← exOk_parseOptInt _ hci, hc]; rfl
      rw [h1]
      simp
    | ok cid =>
      have h1 : optIntB (dget d "customer_id") = true := by
        rw [← exOk_parseOptInt _ hci, hc]; rfl
      rw [h1]
      simp only [Bool.true_and]
      rw [exOk_bind]
      cases hp : parseOptStr (dget d "product_id") with
      | error e =>
        have h2 : optStrB (dget d "product_id") = false := by
          rw [← exOk_parseOptStr, hp]; rfl
        rw [h2]
        simp
      | ok pid =>
        have h2 : optStrB (dget d "product_id") = true := by
          rw [← exOk_parseOptStr, hp]; rfl
        rw [h2]
        simp only [Bool.true_and]
        rw [exOk_bind]
        cases hm2 : parseOptStr (dget d "metric") with
        | error e =>
          have h3 : optStrB (dget d "metric") = false := by
            rw [← exOk_parseOptStr, hm2]; rfl
          rw [h3]
          simp
        | ok m =>
          have h3 : optStrB (dget d "metric") = true := by
            rw [← exOk_parseOptStr, hm2]; rfl
          rw [h3]
          simp only [Bool.true_and]
          rw [exOk_bind]
          cases ht : parseOptInt (dget d "top_n") with
          | error e =>
            have h4 : optIntB (dget d "top_n") = false := by
              rw [← exOk_parseOptInt _ htn, ht]; rfl
            rw [h4]
            simp
          | ok tn =>
            have h4 : optIntB (dget d "top_n") = true := by
              rw [← exOk_parseOptInt _ htn, ht]; rfl
            rw [h4]
            simp only [Bool.true_and]
            rw [exOk_bind]
            cases hd : parseOptStr (dget d "date_range") with
            | error e =>
              have h5 : optStrB (dget d "date_range") = false := by
                rw [← exOk_parseOptStr, hd]; rfl
              rw [h5]
            | ok dr =>
              have h5 : optStrB (dget d "date_range") = true := by
                rw [← exOk_parseOptStr, hd]; rfl
              rw [h5]
              rfl

/-- C8 counterexample: a candidate with a negative customer_id and one with
an empty product_id both validate successfully, where the claim demands a
schema-validation failure. -/
theorem c8_counterexample :
    model_validate [("intent", .vstr "customer"),
        ("customer_id", .vint (-5))] =
      .ok ⟨.customer, some (-5), none, none, none, none⟩ ∧
    model_validate [("intent", .vstr "product"), ("product_id", .vstr "")] =
      .ok ⟨.product, none, some "", none, none, none⟩ :=
  ⟨rfl, rfl⟩

/-- C8 amended: validation fails whenever the kind field is missing or not
one of the three allowed literals; on candidates whose int fields are not
strings, it accepts exactly the candidates whose fields conform to the
declared optional primitive types; numeric strings are additionally
coerced into int fields under pydantic lax mode, as with
customer_id = "123"; no value-range or emptiness constraint is applied, so
a negative customer_id and an empty product_id are accepted, and no
cross-field validation is performed. -/
theorem c8_validation_characterization :
    (∀ d : Dict, kindB (dget d "intent") = false → validationOk d = false) ∧
    (∀ d : Dict, isStrV (dget d "customer_id") = false →
      isStrV (dget d "top_n") = false →
      validationOk d = intentSchemaOk d) ∧
    model_validate [("intent", .vstr "customer"),
        ("customer_id", .vstr "123")] =
      .ok ⟨.customer, some 123, none, none, none, none⟩ ∧
    validationOk [("intent", .vstr "customer"),
      ("customer_id", .vint (-5))] = true ∧
    validationOk [("intent", .vstr "product"),
      ("product_id", .vstr "")] = true :=
  ⟨validationOk_kind_false, validationOk_eq, rfl, rfl, rfl⟩

/-- C8 witness: the characterization at a conforming coercion-free
candidate and the kind-failure clause at a non-string kind. -/
theorem c8_validation_characterization_witness :
    validationOk [("intent", .vstr "customer"), ("customer_id", .vint 2)] =
      intentSchemaOk [("intent", .vstr "customer"),
        ("customer_id", .vint 2)] ∧
    validationOk [("intent", .vint 7)] = false :=
  ⟨c8_validation_characterization.2.1 _ rfl rfl,
   c8_validation_characterization.1 _ rfl⟩

/-- C10 witness: the general splitting clause at concrete sides. -/
theorem c10_split_first_occurrence_witness :
    _interpret_date_range (some ("2024-01-01" ++ ".." ++ " 2024-12-31 ")) =
      (noneIfEmpty (pyStrip "2024-01-01"), noneIfEmpty (pyStrip " 2024-12-31 ")) :=
  c10_split_first_occurrence.2.2.2.2 "2024-01-01" " 2024-12-31 " (by decide)

end Retail
